import Mathlib

/-!
Verification development for the WiFi connection orchestrator
(`scripts/core/wifi_connect.py` of the HardwareMiner repository).

The script is embedded shallowly:

* `run_cmd` (source lines 29-49) is modelled by `runCmd` over an
  abstract outcome of the spawned process (`CmdOutcome`): either the
  process finished with a stdout text, a stderr text and a return code,
  or it timed out.  Python's `str.strip()` becomes `pyStrip`;
  raising becomes `Except`.
* `wait_for_condition` (source lines 51-60) is modelled twice, at two
  levels of abstraction:
  - a timed model (`wait_for_condition` below) over integer clock
    readings (in a fixed subdivision of the second, say milliseconds;
    the unit is irrelevant to the statements), recording the begin time
    of each probe evaluation, the number of evaluations, and every
    duration handed to `time.sleep`;
  - an environment-threaded model (`waitForF`) used inside the
    sequencers, where the number of loop iterations permitted by the
    clock before the deadline is an oracle of the environment
    (`Env.attempts`).
* the sequencers (`teardown_ap_mode`, `connect_to_wifi`,
  `start_ap_mode`, `verify_internet_connectivity`) and the orchestrator
  (`main`, modelled by `mainFlow`) thread an explicit state (`FlowSt`):
  a global command-call counter, a poll counter, and the trace of
  executed command strings.  The operating system is an oracle
  `Env.world` giving the outcome of the k-th spawned command.  All
  sequencer calls of `run_cmd` pass `check=False`, so the non-raising
  projection `runCmdNC` is threaded.
* exceptions escaping a step of `main`'s `try` block (source lines
  345-372) are modelled by an oracle `raisesAt`; `except Exception`
  handles them (BaseException such as KeyboardInterrupt or the
  SystemExit raised by `sys.exit` itself, which `except Exception` does
  not catch, is outside the model).
-/

/-- Bool-valued list prefix test (needle is a prefix of hay). -/
def charsPrefix : List Char → List Char → Bool
  | [], _ => true
  | _ :: _, [] => false
  | a :: xs, b :: ys => a == b && charsPrefix xs ys

/-- Bool-valued substring search: needle occurs contiguously in hay. -/
def charsFind : List Char → List Char → Bool
  | needle, [] => needle.isEmpty
  | needle, c :: rest => charsPrefix needle (c :: rest) || charsFind needle rest

/-- Python `needle in hay` on strings: substring containment. -/
def strContains (hay needle : String) : Bool :=
  charsFind needle.data hay.data

/-- ASCII lowercasing of one character (the case Python `str.lower()`
exercises on the command outputs at issue, which are ASCII). -/
def asciiLower (c : Char) : Char :=
  if 'A' <= c && c <= 'Z' then Char.ofNat (c.toNat + 32) else c

/-- Python `s.lower()` on the outputs at issue. -/
def pyLower (s : String) : String := (s.data.map asciiLower).asString

/-- Python `s.strip()`: drop whitespace from both ends. -/
def pyStrip (s : String) : String :=
  (((s.data.dropWhile Char.isWhitespace).reverse.dropWhile
      Char.isWhitespace).reverse).asString

/-- Python `s.split(sep)` for a one-character separator (the script
splits only on a newline). -/
def pySplitChar (sep : Char) : List Char -> List String
  | [] => [""]
  | c :: rest =>
    match pySplitChar sep rest with
    | [] => []
    | s :: ss =>
      if c = sep then "" :: s :: ss else String.mk (c :: s.data) :: ss

/-- Outcome of one spawned OS command, as observed by `subprocess.run`:
either completion with captured stdout, stderr and return code, or a
timeout (`subprocess.TimeoutExpired`). -/
inductive CmdOutcome where
  | normal (stdout stderr : String) (returncode : Int)
  | timedOut
deriving DecidableEq

/-- The one exception `run_cmd` can let escape:
`subprocess.CalledProcessError`, carrying stderr and the return code. -/
inductive PyExc where
  | calledProcessError (stderr : String) (returncode : Int)
deriving DecidableEq

/-- Embedding of `run_cmd` (source lines 29-49).  `subprocess.run`
raises `CalledProcessError` exactly when `check` is set and the return
code is non-zero; the handler re-raises when `check` is set (so its
`return e.stderr, e.returncode` line is dead code).  On
`TimeoutExpired` it returns `("", -1)`.  Otherwise it returns the
stripped stdout and the return code.  `cmd` and `timeout` are carried
for fidelity; the outcome oracle already reflects them. -/
def runCmd (cmd : String) (check : Bool) (timeout : Nat) (o : CmdOutcome) :
    Except PyExc (String × Int) :=
  match o with
  | .normal out err rc =>
    if check ∧ rc ≠ 0 then
      if check then .error (.calledProcessError err rc) else .ok (err, rc)
    else .ok (pyStrip out, rc)
  | .timedOut => .ok ("", -1)

/-- The non-strict (`check=False`) projection of `run_cmd`: total, never
raises.  Every call site in the script uses `check=False`. -/
def runCmdNC (o : CmdOutcome) : String × Int :=
  match o with
  | .normal out _ rc => (pyStrip out, rc)
  | .timedOut => ("", -1)

theorem runCmd_nonstrict_eq (cmd : String) (timeout : Nat) (o : CmdOutcome) :
    runCmd cmd false timeout o = .ok (runCmdNC o) := by
  cases o with
  | normal out err rc => simp [runCmd, runCmdNC]
  | timedOut => rfl

/-- Timed model of the poll loop of `wait_for_condition` (source lines
51-60).  `probe n` is the value of the n-th evaluation of
`condition_func`; `probeDur n` is the clock advance between the while
guard's reading before that evaluation and the following `time.sleep`
call (probe duration plus loop overhead). -/
structure PollEnv where
  probe : Nat → Bool
  probeDur : Nat → Int

/-- Observable result of one `wait_for_condition` run: the returned
boolean, the clock reading at the final while-guard check (for a success
this is the time at which the successful probe evaluation began), the
number of probe evaluations, and the durations handed to `time.sleep`,
in order. -/
structure PollResult where
  ok : Bool
  retTime : Int
  evals : Nat
  sleeps : List Int
deriving DecidableEq

/-- The `while time.time() - start < timeout` loop of
`wait_for_condition`.  `fuel` bounds the iterations (the Python loop
need not terminate when the clock never advances); `none` means fuel ran
out, and the theorems quantify over all fuels. -/
def waitLoop (pe : PollEnv) (timeout interval start : Int) :
    Nat → Nat → Int → List Int → Option PollResult
  | 0, _, _, _ => none
  | fuel + 1, n, t, acc =>
    if t - start < timeout then
      if pe.probe n then some ⟨true, t, n + 1, acc.reverse⟩
      else waitLoop pe timeout interval start fuel (n + 1)
        (t + pe.probeDur n + interval) (interval :: acc)
    else some ⟨false, t, n, acc.reverse⟩

/-- Embedding of `wait_for_condition` (source lines 51-60): start the
loop at clock reading `start` with no probes evaluated and no sleeps
performed. -/
def wait_for_condition (pe : PollEnv) (timeout interval start : Int)
    (fuel : Nat) : Option PollResult :=
  waitLoop pe timeout interval start fuel 0 start []

/-- Loop invariant for `waitLoop`: every recorded sleep is exactly the
`interval` argument of `time.sleep`, a successful return's `retTime` is
a clock reading accepted by the while guard, and the evaluation count
exceeds the sleep count by at most one. -/
theorem waitLoop_invariant (pe : PollEnv) (T I s : Int) :
    ∀ fuel n t acc r, (∀ x ∈ acc, x = I) → acc.length = n →
    waitLoop pe T I s fuel n t acc = some r →
    ((r.ok = true → r.retTime - s < T) ∧ (∀ x ∈ r.sleeps, x = I) ∧
      r.evals ≤ r.sleeps.length + 1) := by
  intro fuel
  induction fuel with
  | zero => intro n t acc r _ _ h; exact absurd h (by simp [waitLoop])
  | succ fuel ih =>
    intro n t acc r hacc hlen h
    rw [waitLoop] at h
    by_cases hg : t - s < T
    · rw [if_pos hg] at h
      by_cases hp : pe.probe n = true
      · rw [if_pos hp] at h
        cases h
        refine ⟨fun _ => hg, ?_, ?_⟩
        · intro x hx; exact hacc x (List.mem_reverse.mp hx)
        · simp [List.length_reverse, hlen]
      · rw [if_neg hp] at h
        refine ih (n + 1) (t + pe.probeDur n + I) (I :: acc) r ?_ ?_ h
        · intro x hx
          rcases List.mem_cons.mp hx with h1 | h2
          · exact h1
          · exact hacc x h2
        · simp [hlen]
    · rw [if_neg hg] at h
      cases h
      refine ⟨fun hok => absurd hok (by simp), ?_, ?_⟩
      · intro x hx; exact hacc x (List.mem_reverse.mp hx)
      · simp [List.length_reverse, hlen]

/-- C8: the Condition Poller never returns success after its timeout has
elapsed — a `true` result carries a `retTime` (the clock reading at
which the successful probe evaluation began) strictly before the
deadline `start + timeout` — and every duration it hands to
`time.sleep` between consecutive probe evaluations is at most the given
`interval`. -/
theorem wait_for_condition_deadline_and_sleep_bound
    (pe : PollEnv) (T I s : Int) (fuel : Nat) (r : PollResult)
    (h : wait_for_condition pe T I s fuel = some r) :
    (r.ok = true → r.retTime - s < T) ∧ (∀ x ∈ r.sleeps, x ≤ I) := by
  have hinv := waitLoop_invariant pe T I s fuel 0 s [] r
    (by intro x hx; cases hx) rfl h
  exact ⟨hinv.1, fun x hx => le_of_eq (hinv.2.1 x hx)⟩

/-- Concrete poll environment whose probe succeeds immediately. -/
def peImmediate : PollEnv := ⟨fun _ => true, fun _ => 1⟩

/-- Witness for C8 at a concrete run: probe true at once, so the result
is success at time 0 with no sleeps (timeout 5000, interval 1000). -/
theorem wait_for_condition_deadline_and_sleep_bound_witness :
    wait_for_condition peImmediate 5000 1000 0 3 =
      some ⟨true, 0, 1, []⟩ ∧
    (((⟨true, 0, 1, []⟩ : PollResult).ok = true →
      (⟨true, 0, 1, []⟩ : PollResult).retTime - 0 < 5000) ∧
      (∀ x ∈ (⟨true, 0, 1, []⟩ : PollResult).sleeps, x ≤ 1000)) :=
  ⟨by decide,
   wait_for_condition_deadline_and_sleep_bound peImmediate 5000 1000 0 3 _
     (by decide)⟩

/-- Concrete poll environment with a never-true probe taking 10 ms per
evaluation. -/
def peSpin : PollEnv := ⟨fun _ => false, fun _ => 10⟩

/-- C9 counterexample: called with `interval = 0` (below the claimed
100 ms minimum), the poller hands `time.sleep` the duration 0 —
`time.sleep` receives the caller's interval unchanged, no minimum is
enforced, so the sleep separating consecutive probe evaluations is
strictly shorter than 100 ms (indeed of length zero). -/
theorem wait_for_condition_min_interval_counterexample :
    wait_for_condition peSpin 100 0 0 15 =
      some ⟨false, 100, 10, List.replicate 10 0⟩ ∧
    (0 : Int) ∈ (List.replicate 10 (0 : Int)) ∧ ¬ ((100 : Int) ≤ 0) := by
  refine ⟨by decide, by decide, by decide⟩

/-- C9 as amended: between consecutive probe evaluations the poller
performs exactly one sleep whose duration is exactly the caller's
`interval` (the evaluation count exceeds the sleep count by at most
one, so no two evaluations run back-to-back without a sleep call), but
no 100 ms minimum is enforced: for an interval below 100 ms, including
zero, the sleep is that same sub-100 ms interval. -/
theorem wait_for_condition_sleep_exact_interval
    (pe : PollEnv) (T I s : Int) (fuel : Nat) (r : PollResult)
    (h : wait_for_condition pe T I s fuel = some r) :
    r.evals ≤ r.sleeps.length + 1 ∧ ∀ x ∈ r.sleeps, x = I := by
  have hinv := waitLoop_invariant pe T I s fuel 0 s [] r
    (by intro x hx; cases hx) rfl h
  exact ⟨hinv.2.2, hinv.2.1⟩

/-- Witness for the amended C9: the zero-interval run above satisfies
the amended statement, every recorded sleep being exactly 0. -/
theorem wait_for_condition_sleep_exact_interval_witness :
    wait_for_condition peSpin 100 0 0 15 =
      some ⟨false, 100, 10, List.replicate 10 0⟩ ∧
    ((⟨false, 100, 10, List.replicate 10 0⟩ : PollResult).evals ≤
      (⟨false, 100, 10, List.replicate 10 0⟩ : PollResult).sleeps.length + 1 ∧
     ∀ x ∈ (⟨false, 100, 10, List.replicate 10 0⟩ : PollResult).sleeps,
       x = 0) :=
  ⟨by decide,
   wait_for_condition_sleep_exact_interval peSpin 100 0 0 15 _
     (by decide)⟩

/-- C7: the Command Executor in non-strict mode (`check=False`) never
raises (its result is always `.ok`); on a timeout it returns exactly
empty stdout and exit code `-1`; and the stdout it returns is
independent of the command's stderr content (stderr is logged, never
returned). -/
theorem runCmd_nonstrict_contract (cmd : String) (timeout : Nat) :
    (∀ o : CmdOutcome, (runCmd cmd false timeout o).isOk = true) ∧
    runCmd cmd false timeout .timedOut = .ok ("", -1) ∧
    (∀ out err err' : String, ∀ rc : Int,
      runCmd cmd false timeout (.normal out err rc) =
        runCmd cmd false timeout (.normal out err' rc)) := by
  refine ⟨?_, rfl, ?_⟩
  · intro o
    rw [runCmd_nonstrict_eq cmd timeout o]
    rfl
  · intro out err err' rc
    simp [runCmd]

/-- Environment of one orchestration run: `world k c` is the outcome of
the k-th spawned command (whose command line is `c`), `attempts i` is
the number of loop iterations the clock permits the i-th
`wait_for_condition` call before its deadline, and `wifiManagerExists`
is whether `Path("/opt/device-software/src/wifi-manager/wifi_manager.py").exists()`. -/
structure Env where
  world : Nat → String → CmdOutcome
  attempts : Nat → Nat
  wifiManagerExists : Bool

/-- Threaded state of the flow: the global command-call counter, the
`wait_for_condition`-call counter, and the trace of executed command
lines in order. -/
structure FlowSt where
  k : Nat
  p : Nat
  trace : List String
deriving DecidableEq

/-- Initial flow state. -/
def st0 : FlowSt := ⟨0, 0, []⟩

/-- One `run_cmd(..., check=False)` call inside the flow: returns the
(stripped stdout, return code) pair and the advanced state. -/
def runC (env : Env) (st : FlowSt) (cmd : String) :
    (String × Int) × FlowSt :=
  (runCmdNC (env.world st.k cmd), ⟨st.k + 1, st.p, st.trace ++ [cmd]⟩)

/-- A `run_cmd(..., check=False)` call whose result the script discards. -/
def runCd (env : Env) (st : FlowSt) (cmd : String) : FlowSt :=
  (runC env st cmd).2

/-- Iterations of the `wait_for_condition` loop inside the flow: the
probe is evaluated up to `n` times, stopping early on success. -/
def waitAux (env : Env) (probe : Env → FlowSt → Bool × FlowSt) :
    Nat → FlowSt → Bool × FlowSt
  | 0, st => (false, st)
  | n + 1, st =>
    let r := probe env st
    if r.1 then (true, r.2) else waitAux env probe n r.2

/-- One `wait_for_condition(...)` call inside the flow: the clock oracle
`env.attempts` fixes how many iterations this (the `st.p`-th) poll gets
before its deadline. -/
def waitForF (env : Env) (probe : Env → FlowSt → Bool × FlowSt)
    (st : FlowSt) : Bool × FlowSt :=
  waitAux env probe (env.attempts st.p) ⟨st.k, st.p + 1, st.trace⟩

/-- Teardown poll 1 (source line 73): AP processes no longer found. -/
def tdStopProbe (env : Env) (st : FlowSt) : Bool × FlowSt :=
  let r := runC env st "pgrep -f 'hostapd|dnsmasq'"
  (decide (r.1.2 ≠ 0), r.2)

/-- Teardown poll 2 (source line 108): NetworkManager reports active. -/
def tdNMActiveProbe (env : Env) (st : FlowSt) : Bool × FlowSt :=
  let r := runC env st "systemctl is-active NetworkManager"
  (r.1.1 == "active", r.2)

/-- Teardown poll 3 (source line 125): WiFi radio reports enabled. -/
def tdRadioProbe (env : Env) (st : FlowSt) : Bool × FlowSt :=
  let r := runC env st "nmcli radio wifi"
  (strContains (pyLower r.1.1) "enabled", r.2)

/-- Teardown poll 4 (source lines 134-138): the device status line for
wlan0 is neither unavailable nor unmanaged and the query succeeds.  The
Python conjunction short-circuits, so later commands are spawned only
when the earlier conjuncts hold. -/
def tdReadyProbe (env : Env) (st : FlowSt) : Bool × FlowSt :=
  let a := runC env st "nmcli device status | grep wlan0"
  if strContains (pyLower a.1.1) "unavailable" then (false, a.2)
  else
    let b := runC env a.2 "nmcli device status | grep wlan0"
    if strContains (pyLower b.1.1) "unmanaged" then (false, b.2)
    else
      let c := runC env b.2 "nmcli device status | grep wlan0"
      (c.1.2 == 0, c.2)

/-- Embedding of `teardown_ap_mode` (source lines 62-149): ordered
best-effort steps, every command non-strict, every poll result at most
logged; `time.sleep` calls touch no observable state and are elided.
The function has a single `return True` and no other exit. -/
def teardown_ap_mode (env : Env) (st : FlowSt) : Bool × FlowSt :=
  let st := runCd env st "systemctl stop hostapd"
  let st := runCd env st "systemctl stop dnsmasq"
  let st := (waitForF env tdStopProbe st).2
  let st := runCd env st "pkill -f hostapd"
  let st := runCd env st "pkill -f dnsmasq"
  let st := runCd env st "ip addr flush dev wlan0"
  let st := runCd env st "ip link set dev wlan0 down"
  let st := runCd env st "ip link set dev wlan0 up"
  let st := runCd env st "nmcli device set wlan0 managed yes"
  let st := runCd env st "rm -f /etc/NetworkManager/conf.d/99-unmanaged-devices.conf"
  let st := runCd env st "systemctl restart NetworkManager"
  let st := (waitForF env tdNMActiveProbe st).2
  let st := runCd env st "systemctl start systemd-resolved"
  let st := runCd env st "nmcli radio wifi on"
  let st := (waitForF env tdRadioProbe st).2
  let st := (waitForF env tdReadyProbe st).2
  (true, st)

/-- Connect poll 1 (source line 170): wpa_supplicant reports active. -/
def cSuppProbe (env : Env) (st : FlowSt) : Bool × FlowSt :=
  let r := runC env st "systemctl is-active wpa_supplicant"
  (r.1.1 == "active", r.2)

/-- The newline character the scan-list probe splits on. -/
def nlChar : Char := Char.ofNat 10

/-- Connect poll 2 (source line 182): the scan list has more than one
line. -/
def cScanProbe (env : Env) (st : FlowSt) : Bool × FlowSt :=
  let r := runC env st "nmcli -t -f SSID dev wifi list"
  (decide ((pySplitChar nlChar r.1.1.data).length > 1), r.2)

/-- Connect poll 3 (source line 247): the general state contains
"connected". -/
def cStateProbe (env : Env) (st : FlowSt) : Bool × FlowSt :=
  let r := runC env st "nmcli -t -f STATE general"
  (strContains (pyLower r.1.1) "connected", r.2)

/-- The command line of the final IP check (source lines 264, 265, 273). -/
def ipCmd : String := "ip addr show wlan0 | grep 'inet '"

/-- Connect poll 4 (source lines 263-266): the interface shows an inet
address and the output does not contain the AP gateway text
"192.168.4.1".  The lambda spawns the command twice; the Python `and`
short-circuits, so the second spawn happens only when the first
conjunct holds. -/
def ipProbe (env : Env) (st : FlowSt) : Bool × FlowSt :=
  let a := runC env st ipCmd
  if strContains a.1.1 "inet " then
    let b := runC env a.2 ipCmd
    (!(strContains b.1.1 "192.168.4.1"), b.2)
  else (false, a.2)

/-- Command line of the primary direct connect attempt (source lines
212-215): the password clause is present exactly when the password is
non-empty. -/
def connectCmd (ssid password : String) : String :=
  if password ≠ "" then
    "nmcli device wifi connect \"" ++ ssid ++ "\" password \"" ++ password ++ "\""
  else
    "nmcli device wifi connect \"" ++ ssid ++ "\""

/-- Command line deleting a pre-existing profile (source line 207). -/
def delCmd (ssid : String) : String :=
  "nmcli connection delete \"" ++ ssid ++ "\""

/-- Fallback step 1 (source line 229): add a connection profile. -/
def addCmd (ssid : String) : String :=
  "nmcli connection add type wifi con-name \"" ++ ssid ++
    "\" ifname wlan0 ssid \"" ++ ssid ++ "\""

/-- Fallback step 2 (source line 232): set key management to wpa-psk. -/
def modKeyCmd (ssid : String) : String :=
  "nmcli connection modify \"" ++ ssid ++ "\" wifi-sec.key-mgmt wpa-psk"

/-- Fallback step 3 (source line 235): set the pre-shared key. -/
def modPskCmd (ssid password : String) : String :=
  "nmcli connection modify \"" ++ ssid ++ "\" wifi-sec.psk \"" ++
    password ++ "\""

/-- Fallback step 4 (source line 238): bring the profile up. -/
def upCmd (ssid : String) : String :=
  "nmcli connection up \"" ++ ssid ++ "\""

/-- Steps of `connect_to_wifi` before the primary connect attempt
(source lines 156-208): stop AP services, restart wpa_supplicant and
poll for it, rescan and poll for results, two diagnostic listings
(their output is only logged), and deletion of a same-named profile. -/
def connectPre (env : Env) (st : FlowSt) (ssid : String) : FlowSt :=
  let st := runCd env st "systemctl stop hostapd"
  let st := runCd env st "systemctl stop dnsmasq"
  let st := runCd env st "systemctl stop wpa_supplicant"
  let st := runCd env st "systemctl start wpa_supplicant"
  let st := (waitForF env cSuppProbe st).2
  let st := runCd env st "nmcli device wifi rescan"
  let st := (waitForF env cScanProbe st).2
  let st := runCd env st "nmcli -t -f SSID,SIGNAL,SECURITY dev wifi list"
  let st := runCd env st "nmcli -t -f SSID dev wifi list"
  runCd env st (delCmd ssid)

/-- The four-step alternative connection method (source lines 229-238),
run when the primary attempt failed and a password was supplied. -/
def connectFallback (env : Env) (st : FlowSt) (ssid password : String) :
    FlowSt :=
  let st := runCd env st (addCmd ssid)
  let st := runCd env st (modKeyCmd ssid)
  let st := runCd env st (modPskCmd ssid password)
  runCd env st (upCmd ssid)

/-- Tail of `connect_to_wifi` (source lines 246-279): poll for the
general state to report connected (result only logged), then the final
gates — WiFi radio enabled, general state connected, and the IP poll —
with `True` returned only when every gate passes (the success branch
spawns the IP listing once more for the log). -/
def afterConnect (env : Env) (ssid : String) (st : FlowSt) :
    Bool × FlowSt :=
  let st1 := (waitForF env cStateProbe st).2
  let w := runC env st1 "nmcli -t -f WIFI general"
  if strContains (pyLower w.1.1) "enabled" then
    let s2 := runC env w.2 "nmcli -t -f STATE general"
    if strContains (pyLower s2.1.1) "connected" then
      let ip := waitForF env ipProbe s2.2
      if ip.1 then (true, runCd env ip.2 ipCmd) else (false, ip.2)
    else (false, s2.2)
  else (false, w.2)

/-- Embedding of `connect_to_wifi` (source lines 151-283).  The primary
connect attempt's return code selects the path: on failure with an
empty password the function returns `False` immediately; on failure
with a password it runs the four-step fallback and proceeds to the
final polling; on success it proceeds directly.  Nothing in the body
raises (every command is non-strict), so the `except` clause converting
exceptions to `False` is not exercised in the model. -/
def connect_to_wifi (env : Env) (st : FlowSt) (ssid password : String) :
    Bool × FlowSt :=
  let st1 := connectPre env st ssid
  let pr := runC env st1 (connectCmd ssid password)
  if pr.1.2 ≠ 0 then
    if password = "" then (false, pr.2)
    else afterConnect env ssid (connectFallback env pr.2 ssid password)
  else afterConnect env ssid pr.2

/-- Command line invoking the AP-mode startup collaborator (source line
298). -/
def apStartCmd : String :=
  "python3 /opt/device-software/src/wifi-manager/wifi_manager.py start_hotspot"

/-- Embedding of `start_ap_mode` (source lines 285-312): if the wifi
manager script is missing return `False`; otherwise invoke it, then
report whether the AP daemon process is found. -/
def start_ap_mode (env : Env) (st : FlowSt) : Bool × FlowSt :=
  if env.wifiManagerExists = false then (false, st)
  else
    let st := runCd env st apStartCmd
    let r := runC env st "pgrep -f hostapd"
    (r.1.2 == 0, r.2)

/-- Embedding of `verify_internet_connectivity` (source lines 314-330):
ping an external address and report whether it succeeded. -/
def verify_internet_connectivity (env : Env) (st : FlowSt) :
    Bool × FlowSt :=
  let r := runC env st "ping -c 3 -W 5 8.8.8.8"
  (r.1.2 == 0, r.2)

/-- The step of `main`'s `try` block from which an unanticipated
exception (an `Exception`, the class `except Exception` catches)
escapes. -/
inductive MainStep where
  | teardown
  | connect
  | verify
deriving DecidableEq

/-- Observable outcome of one `main` run: the process exit code, whether
`start_ap_mode` was invoked, whether an unhandled exception escaped the
teardown/connect/verify sequence into `main`'s handler, the value
`connect_to_wifi` returned (`none` when it was never invoked or never
returned), and the final flow state. -/
structure MainResult where
  exitCode : Nat
  apCalled : Bool
  excFired : Bool
  connResult : Option Bool
  st : FlowSt
deriving DecidableEq

/-- The `except Exception` handler of `main` (source lines 368-372):
attempt to restore AP mode, then `sys.exit(1)`. -/
def mainHandler (env : Env) (st : FlowSt) (c : Option Bool) : MainResult :=
  ⟨1, true, true, c, (start_ap_mode env st).2⟩

/-- Embedding of `main` (source lines 332-372).  Fewer than two
arguments exit 1 at once.  Otherwise: teardown (whose `False` branch
would exit 1 without fallback — unreachable, since teardown always
returns `True`); connect; on success, advisory internet verification
and exit 0; on failure, AP fallback and exit 1.  An exception escaping
a reached step (oracle `raisesAt`) lands in the handler. -/
def mainFlow (env : Env) (argv : List String) (raisesAt : Option MainStep) :
    MainResult :=
  if argv.length < 3 then ⟨1, false, false, none, st0⟩
  else
    let ssid := argv.getD 1 ""
    let password := argv.getD 2 ""
    let td := teardown_ap_mode env st0
    if raisesAt = some .teardown then mainHandler env td.2 none
    else if td.1 = false then ⟨1, false, false, none, td.2⟩
    else
      let conn := connect_to_wifi env td.2 ssid password
      if raisesAt = some .connect then mainHandler env conn.2 none
      else if conn.1 then
        let v := verify_internet_connectivity env conn.2
        if raisesAt = some .verify then mainHandler env v.2 (some true)
        else ⟨0, false, false, some true, v.2⟩
      else
        let ap := start_ap_mode env conn.2
        ⟨1, true, false, some false, ap.2⟩

/-- If a probe never evaluates true, no number of loop iterations makes
the poll succeed. -/
theorem waitAux_false_of (env : Env) (probe : Env → FlowSt → Bool × FlowSt)
    (H : ∀ st, (probe env st).1 = false) :
    ∀ n st, (waitAux env probe n st).1 = false := by
  intro n
  induction n with
  | zero => intro st; rfl
  | succ n ih =>
    intro st
    simp only [waitAux]
    rw [H st]
    simpa using ih (probe env st).2

/-- Poll-level version of `waitAux_false_of`. -/
theorem waitForF_false_of (env : Env) (probe : Env → FlowSt → Bool × FlowSt)
    (H : ∀ st, (probe env st).1 = false) :
    ∀ st, (waitForF env probe st).1 = false := by
  intro st
  exact waitAux_false_of env probe H _ _

/-- When every response to the interface-address listing contains the
text "192.168.4.1", the IP-readiness probe is false at every state. -/
theorem ipProbe_false_of (env : Env)
    (H : ∀ k, strContains (runCmdNC (env.world k ipCmd)).1 "192.168.4.1" = true) :
    ∀ st, (ipProbe env st).1 = false := by
  intro st
  simp only [ipProbe]
  split
  · simp [runC, H]
  · rfl

/-- When every response to the interface-address listing contains the
text "192.168.4.1", the tail of the Connect Sequencer fails all runs. -/
theorem afterConnect_false_of (env : Env)
    (H : ∀ k, strContains (runCmdNC (env.world k ipCmd)).1 "192.168.4.1" = true) :
    ∀ ssid st, (afterConnect env ssid st).1 = false := by
  intro ssid st
  have hip : ∀ st', (waitForF env ipProbe st').1 = false :=
    waitForF_false_of env ipProbe (ipProbe_false_of env H)
  simp only [afterConnect]
  split
  · split
    · simp [hip]
    · rfl
  · rfl

/-- When every response to the interface-address listing contains the
text "192.168.4.1", the Connect Sequencer returns `False` on every
path. -/
theorem connect_false_of_gateway (env : Env)
    (H : ∀ k, strContains (runCmdNC (env.world k ipCmd)).1 "192.168.4.1" = true) :
    ∀ st ssid password, (connect_to_wifi env st ssid password).1 = false := by
  intro st ssid password
  simp only [connect_to_wifi]
  split
  · split
    · rfl
    · exact afterConnect_false_of env H ssid _
  · exact afterConnect_false_of env H ssid _

/-- C3: whenever the final IP-address check of the Client Connect
Sequencer observes the AP gateway address 192.168.4.1 in the interface
listing (every response to that listing contains it), the sequencer
returns `connected: false`, regardless of what every other command and
poll — supplicant, scan, general-state "connected" — reported. -/
theorem connect_ap_gateway_rejected (env : Env) (st : FlowSt)
    (ssid password : String)
    (H : ∀ k, strContains (runCmdNC (env.world k ipCmd)).1 "192.168.4.1" = true) :
    (connect_to_wifi env st ssid password).1 = false :=
  connect_false_of_gateway env H st ssid password

/-- Environment whose interface listing always shows the AP gateway
address and whose every other command succeeds with empty output. -/
def envGw : Env :=
  ⟨fun _ c =>
    if c = ipCmd then
      .normal "inet 192.168.4.1/24 brd 192.168.4.255 scope global wlan0" "" 0
    else .normal "" "" 0,
   fun _ => 1, true⟩

/-- Every response of `envGw` to the interface listing contains the
gateway text (the oracle ignores the call index). -/
theorem envGw_gateway :
    ∀ k, strContains (runCmdNC (envGw.world k ipCmd)).1 "192.168.4.1" = true :=
  fun _ =>
    (by decide : strContains (runCmdNC (envGw.world 0 ipCmd)).1 "192.168.4.1" = true)

/-- Witness for C3 at a concrete environment in which the interface
still holds the AP gateway address. -/
theorem connect_ap_gateway_rejected_witness :
    (∀ k, strContains (runCmdNC (envGw.world k ipCmd)).1 "192.168.4.1" = true) ∧
    (connect_to_wifi envGw st0 "TestNet" "secret").1 = false :=
  ⟨envGw_gateway,
   connect_ap_gateway_rejected envGw st0 "TestNet" "secret" envGw_gateway⟩

/-- An interface listing whose address is 192.168.4.100 — a different
address than the AP gateway 192.168.4.1, yet containing it as a
substring. -/
def apSubnetOut : String :=
  "inet 192.168.4.100/24 brd 192.168.4.255 scope global dynamic wlan0"

/-- Environment whose interface listing always shows 192.168.4.100 and
whose every other command succeeds with empty output. -/
def envSubnet : Env :=
  ⟨fun _ c => if c = ipCmd then .normal apSubnetOut "" 0 else .normal "" "" 0,
   fun _ => 1, true⟩

/-- Every response of `envSubnet` to the interface listing contains the
gateway text (the listing shows the distinct address 192.168.4.100). -/
theorem envSubnet_gateway :
    ∀ k, strContains (runCmdNC (envSubnet.world k ipCmd)).1 "192.168.4.1" = true :=
  fun _ =>
    (by decide :
      strContains (runCmdNC (envSubnet.world 0 ipCmd)).1 "192.168.4.1" = true)

/-- C10: the final IP gate rejects by substring, not by exact gateway
address: in every environment whose every interface-listing output
contains "192.168.4.1" anywhere in its text — which includes listings
of distinct addresses such as 192.168.4.100, since `apSubnetOut`, a
192.168.4.100 listing, contains that substring — the IP-readiness
probe evaluates to false at every state and the sequencer returns
`connected: false`: a strictly broader exclusion than the single AP
gateway address. -/
theorem connect_gateway_substring_gate (env : Env) (st stP : FlowSt)
    (ssid password : String)
    (H : ∀ k, strContains (runCmdNC (env.world k ipCmd)).1 "192.168.4.1" = true) :
    (ipProbe env stP).1 = false ∧
    (connect_to_wifi env st ssid password).1 = false ∧
    strContains apSubnetOut "192.168.4.1" = true ∧
    strContains apSubnetOut "192.168.4.100" = true :=
  ⟨ipProbe_false_of env H stP,
   connect_false_of_gateway env H st ssid password,
   by decide, by decide⟩

/-- Witness for C10 at the 192.168.4.100 environment: the hypothesis is
satisfied by listings whose address is not the gateway, and the probe
and sequencer still reject. -/
theorem connect_gateway_substring_gate_witness :
    (∀ k, strContains (runCmdNC (envSubnet.world k ipCmd)).1 "192.168.4.1" = true) ∧
    ((ipProbe envSubnet st0).1 = false ∧
     (connect_to_wifi envSubnet st0 "TestNet" "secret").1 = false ∧
     strContains apSubnetOut "192.168.4.1" = true ∧
     strContains apSubnetOut "192.168.4.100" = true) :=
  ⟨envSubnet_gateway,
   connect_gateway_substring_gate envSubnet st0 st0 "TestNet" "secret"
     envSubnet_gateway⟩

/-- C4: with a non-empty password, when the primary direct connect
command returns a non-zero code, the run continues into `afterConnect`
(the final connection-state polling) with exactly the four fallback
commands — add profile, set key-mgmt, set psk, bring up — appended to
the trace, in that order, between the primary attempt and that
polling. -/
theorem connect_fallback_steps (env : Env) (st : FlowSt)
    (ssid password : String) (hpw : password ≠ "")
    (hrc : (runC env (connectPre env st ssid) (connectCmd ssid password)).1.2 ≠ 0) :
    connect_to_wifi env st ssid password =
      afterConnect env ssid
        (connectFallback env
          (runC env (connectPre env st ssid) (connectCmd ssid password)).2
          ssid password) ∧
    (connectFallback env
      (runC env (connectPre env st ssid) (connectCmd ssid password)).2
      ssid password).trace =
      ((runC env (connectPre env st ssid) (connectCmd ssid password)).2).trace ++
        [addCmd ssid, modKeyCmd ssid, modPskCmd ssid password, upCmd ssid] := by
  constructor
  · simp only [connect_to_wifi]
    rw [if_pos hrc, if_neg hpw]
  · simp [connectFallback, runCd, runC]

/-- Environment in which every command fails with return code 1 and
empty output. -/
def envAllFail : Env := ⟨fun _ _ => .normal "" "" 1, fun _ => 1, true⟩

/-- Witness for C4: with every command failing, the primary attempt
fails and the four fallback steps are traced. -/
theorem connect_fallback_steps_witness :
    (("secret" : String) ≠ "" ∧
     (runC envAllFail (connectPre envAllFail st0 "TestNet")
        (connectCmd "TestNet" "secret")).1.2 ≠ 0) ∧
    (connect_to_wifi envAllFail st0 "TestNet" "secret" =
      afterConnect envAllFail "TestNet"
        (connectFallback envAllFail
          (runC envAllFail (connectPre envAllFail st0 "TestNet")
            (connectCmd "TestNet" "secret")).2
          "TestNet" "secret") ∧
    (connectFallback envAllFail
      (runC envAllFail (connectPre envAllFail st0 "TestNet")
        (connectCmd "TestNet" "secret")).2
      "TestNet" "secret").trace =
      ((runC envAllFail (connectPre envAllFail st0 "TestNet")
        (connectCmd "TestNet" "secret")).2).trace ++
        [addCmd "TestNet", modKeyCmd "TestNet",
         modPskCmd "TestNet" "secret", upCmd "TestNet"]) :=
  ⟨⟨by decide, by decide⟩,
   connect_fallback_steps envAllFail st0 "TestNet" "secret" (by decide) (by decide)⟩

/-- C5: with an empty password, when the primary direct connect command
returns a non-zero code, the Connect Sequencer returns `connected:
false` immediately — the returned state is exactly the post-primary
state, so no fallback connection-profile command is spawned. -/
theorem connect_empty_password_no_fallback (env : Env) (st : FlowSt)
    (ssid : String)
    (hrc : (runC env (connectPre env st ssid) (connectCmd ssid "")).1.2 ≠ 0) :
    connect_to_wifi env st ssid "" =
      (false, (runC env (connectPre env st ssid) (connectCmd ssid "")).2) := by
  simp only [connect_to_wifi]
  rw [if_pos hrc]
  simp

/-- Witness for C5: with every command failing, the open-network attempt
fails immediately after the primary command. -/
theorem connect_empty_password_no_fallback_witness :
    ((runC envAllFail (connectPre envAllFail st0 "TestNet")
        (connectCmd "TestNet" "")).1.2 ≠ 0) ∧
    connect_to_wifi envAllFail st0 "TestNet" "" =
      (false, (runC envAllFail (connectPre envAllFail st0 "TestNet")
        (connectCmd "TestNet" "")).2) :=
  ⟨by decide,
   connect_empty_password_no_fallback envAllFail st0 "TestNet" (by decide)⟩

/-- The AP Teardown Sequencer has a single exit, `return True`. -/
theorem teardown_returns_true (env : Env) (st : FlowSt) :
    (teardown_ap_mode env st).1 = true := rfl

/-- C6: for every sequence of command results — including every command
failing or timing out and every readiness poll timing out — the AP
Teardown Sequencer returns success, and consequently the orchestrator
(given enough arguments) still invokes the Client Connect Sequencer,
whose result is recorded in the run's outcome. -/
theorem teardown_best_effort_connect_invoked
    (env envO : Env) (st : FlowSt) (argv : List String)
    (hargv : 3 ≤ argv.length) :
    (teardown_ap_mode env st).1 = true ∧
    ((mainFlow envO argv none).connResult).isSome = true := by
  refine ⟨rfl, ?_⟩
  simp only [mainFlow]
  rw [if_neg (by omega : ¬ argv.length < 3)]
  rw [if_neg (by simp : ¬ (none : Option MainStep) = some MainStep.teardown)]
  rw [if_neg
    (by simp [teardown_returns_true] :
      ¬ (teardown_ap_mode envO st0).1 = false)]
  rw [if_neg (by simp : ¬ (none : Option MainStep) = some MainStep.connect)]
  split
  · rw [if_neg (by simp : ¬ (none : Option MainStep) = some MainStep.verify)]
    rfl
  · rfl

/-- Witness for C6 at a concrete run: three arguments, every command
failing. -/
theorem teardown_best_effort_connect_invoked_witness :
    3 ≤ (["wifi_connect.py", "TestNet", "secret"] : List String).length ∧
    ((teardown_ap_mode envAllFail st0).1 = true ∧
     ((mainFlow envAllFail ["wifi_connect.py", "TestNet", "secret"]
        none).connResult).isSome = true) :=
  ⟨by decide,
   teardown_best_effort_connect_invoked envAllFail envAllFail st0
     ["wifi_connect.py", "TestNet", "secret"] (by decide)⟩

/-- C1: on every run in which an unhandled exception escapes the
teardown/connect/verify sequence into the orchestrator's handler, the
AP fallback activator is invoked and the process terminates with exit
code 1 instead of propagating the exception. -/
theorem main_exception_fallback (env : Env) (argv : List String)
    (raisesAt : Option MainStep)
    (h : (mainFlow env argv raisesAt).excFired = true) :
    (mainFlow env argv raisesAt).exitCode = 1 ∧
    (mainFlow env argv raisesAt).apCalled = true := by
  simp only [mainFlow] at h ⊢
  by_cases harg : argv.length < 3
  · rw [if_pos harg] at h
    exact absurd h (by simp)
  · rw [if_neg harg] at h ⊢
    by_cases h1 : raisesAt = some MainStep.teardown
    · rw [if_pos h1] at h ⊢
      exact ⟨rfl, rfl⟩
    · rw [if_neg h1] at h ⊢
      by_cases h2 : (teardown_ap_mode env st0).1 = false
      · rw [if_pos h2] at h
        exact absurd h (by simp)
      · rw [if_neg h2] at h ⊢
        by_cases h3 : raisesAt = some MainStep.connect
        · rw [if_pos h3] at h ⊢
          exact ⟨rfl, rfl⟩
        · rw [if_neg h3] at h ⊢
          by_cases h4 : (connect_to_wifi env (teardown_ap_mode env st0).2
              (argv.getD 1 "") (argv.getD 2 "")).1 = true
          · rw [if_pos h4] at h ⊢
            by_cases h5 : raisesAt = some MainStep.verify
            · rw [if_pos h5] at h ⊢
              exact ⟨rfl, rfl⟩
            · rw [if_neg h5] at h
              exact absurd h (by simp)
          · rw [if_neg h4] at h
            exact absurd h (by simp)

/-- Witness for C1: every command failing and an exception escaping the
teardown step. -/
theorem main_exception_fallback_witness :
    (mainFlow envAllFail ["wifi_connect.py", "TestNet", "secret"]
      (some .teardown)).excFired = true ∧
    ((mainFlow envAllFail ["wifi_connect.py", "TestNet", "secret"]
      (some .teardown)).exitCode = 1 ∧
     (mainFlow envAllFail ["wifi_connect.py", "TestNet", "secret"]
      (some .teardown)).apCalled = true) :=
  ⟨by decide,
   main_exception_fallback envAllFail ["wifi_connect.py", "TestNet", "secret"]
     (some .teardown) (by decide)⟩

/-- C2: in every run with no escaping exception, the orchestrator exits
0 exactly when the Client Connect Sequencer returned `connected: true`,
and every run that fell back to AP mode exits 1. -/
theorem main_exit_code_iff_connected (env : Env) (argv : List String) :
    ((mainFlow env argv none).exitCode = 0 ↔
      (mainFlow env argv none).connResult = some true) ∧
    ((mainFlow env argv none).apCalled = false ∨
      (mainFlow env argv none).exitCode = 1) := by
  simp only [mainFlow]
  split
  · simp
  · split
    · simp_all
    · split
      · simp
      · split
        · simp_all
        · split
          · split
            · simp_all
            · simp
          · simp
